import Mathlib

/-!
Verification of the cephalometric analysis core (landmark estimator,
clinical metrics calculator, malocclusion classifier, orchestrator)
against its natural-language specification.

The Python source is shallowly embedded: Python floats are modelled as
real numbers, dicts of landmarks as association lists keyed by strings,
NumPy's seeded `RandomState` draws as an explicit function from
(seed, draw index) to the drawn standard-normal value, and Python's
process-stable `hash` of the stringified feature list as an explicit
function parameter.  Fallible Python code (raising exceptions) is
embedded with `Except`.
-/

namespace Ceph

/-- Pixel coordinates of a landmark, as in the Python `(x, y)` tuples. -/
abbrev Point := ℝ × ℝ

/-- Landmark mapping: Python's insertion-ordered `dict[str, tuple]`. -/
abbrev Lm := List (String × Point)

/-- Key lookup in a landmark mapping (first match, as in a dict). -/
def lookupLm : Lm → String → Option Point
  | [], _ => none
  | (k, v) :: rest, key => if k = key then some v else lookupLm rest key

/-- Membership test for a key, `name in landmarks` in the source. -/
def containsLm (l : Lm) (k : String) : Bool := (lookupLm l k).isSome

/-- In-place update of an existing key (`d[k] = v`); keeps insertion order,
no-op when the key is absent (the source only updates present keys). -/
def updateLm : Lm → String → Point → Lm
  | [], _, _ => []
  | (k, v) :: rest, key, p =>
      if k = key then (k, p) :: rest else (k, v) :: updateLm rest key p

/-- Direct dict indexing `landmarks[k]` at call sites where the source
guarantees the key is present (reference templates hold all 19 names). -/
def getLm (l : Lm) (k : String) : Point := (lookupLm l k).getD (0, 0)

/-- Python's `round(x, 2)`: round to the nearest multiple of 0.01.
Mathlib's `round` resolves ties upward while Python rounds ties to even,
but no claim in this development evaluates `round2` at a tie. -/
noncomputable def round2 (x : ℝ) : ℝ := ((round (x * 100) : ℤ) : ℝ) / 100

/-! ## GeometryKernel (src/core/clinical_metrics.py, demo_inference.py) -/

/-- Embeds `calculate_angle_from_three_points` (clinical_metrics.py:39-74):
the angle at vertex `p2` between the rays towards `p1` and `p3`, via the
normalized dot product; returns 0 when either ray has zero length; the
cosine is clamped to [-1, 1] before `acos`; the result is in degrees. -/
noncomputable def calculate_angle_from_three_points (p1 p2 p3 : Point) : ℝ :=
  if Real.sqrt ((p1.1 - p2.1) ^ 2 + (p1.2 - p2.2) ^ 2) = 0 ∨
      Real.sqrt ((p3.1 - p2.1) ^ 2 + (p3.2 - p2.2) ^ 2) = 0 then 0
  else
    Real.arccos (max (-1)
      (min 1 (((p1.1 - p2.1) * (p3.1 - p2.1) + (p1.2 - p2.2) * (p3.2 - p2.2)) /
        (Real.sqrt ((p1.1 - p2.1) ^ 2 + (p1.2 - p2.2) ^ 2) *
          Real.sqrt ((p3.1 - p2.1) ^ 2 + (p3.2 - p2.2) ^ 2))))) * 180 / Real.pi

/-- Python's `math.atan2(y, x)` on reals (atan2(0,0) = 0, as in CPython). -/
noncomputable def atan2 (y x : ℝ) : ℝ :=
  if 0 < x then Real.arctan (y / x)
  else if x < 0 then
    (if 0 ≤ y then Real.arctan (y / x) + Real.pi else Real.arctan (y / x) - Real.pi)
  else
    (if 0 < y then Real.pi / 2 else if y < 0 then -(Real.pi / 2) else 0)

/-- Embeds `calculate_line_angle` (clinical_metrics.py:76-93): angle of the
segment from `p1` to `p2` against the horizontal, in degrees; 0 for a
zero-length segment. -/
noncomputable def calculate_line_angle (p1 p2 : Point) : ℝ :=
  if p2.1 - p1.1 = 0 ∧ p2.2 - p1.2 = 0 then 0
  else atan2 (p2.2 - p1.2) (p2.1 - p1.1) * 180 / Real.pi

/-- Embeds `calculate_angle_between_lines` (clinical_metrics.py:95-114):
absolute difference of the two line angles, folded into [0, 180]. -/
noncomputable def calculate_angle_between_lines (l1p1 l1p2 l2p1 l2p2 : Point) : ℝ :=
  if |calculate_line_angle l1p1 l1p2 - calculate_line_angle l2p1 l2p2| > 180 then
    360 - |calculate_line_angle l1p1 l1p2 - calculate_line_angle l2p1 l2p2|
  else |calculate_line_angle l1p1 l1p2 - calculate_line_angle l2p1 l2p2|

/-- Embeds `similarity_transform_2d` (demo_inference.py:247-287): scale and
rotation from the source anchor pair to the destination anchor pair,
applied to every point; returns the input unchanged if either anchor
vector is degenerate. -/
noncomputable def similarity_transform_2d (points : Lm)
    (srcAnchor1 srcAnchor2 dstAnchor1 dstAnchor2 : Point) : Lm :=
  let srcDx := srcAnchor2.1 - srcAnchor1.1
  let srcDy := srcAnchor2.2 - srcAnchor1.2
  let srcDist := Real.sqrt (srcDx ^ 2 + srcDy ^ 2)
  let dstDx := dstAnchor2.1 - dstAnchor1.1
  let dstDy := dstAnchor2.2 - dstAnchor1.2
  let dstDist := Real.sqrt (dstDx ^ 2 + dstDy ^ 2)
  if srcDist = 0 ∨ dstDist = 0 then points
  else
    let scale := dstDist / srcDist
    let rotation := atan2 dstDy dstDx - atan2 srcDy srcDx
    let cosR := Real.cos rotation
    let sinR := Real.sin rotation
    points.map (fun nv =>
      let tx := nv.2.1 - srcAnchor1.1
      let ty := nv.2.2 - srcAnchor1.2
      (nv.1, (scale * (cosR * tx - sinR * ty) + dstAnchor1.1,
              scale * (sinR * tx + cosR * ty) + dstAnchor1.2)))

/-! ## ClinicalMetricsCalculator (src/core/clinical_metrics.py) -/

/-- Embeds `calculate_sna` (clinical_metrics.py:116-128): angle S-N-A;
a missing landmark raises `ValueError` (here: `Except.error`). -/
noncomputable def calculate_sna (landmarks : Lm) : Except String ℝ :=
  match lookupLm landmarks "S", lookupLm landmarks "N", lookupLm landmarks "A" with
  | some s, some n, some a => .ok (calculate_angle_from_three_points s n a)
  | _, _, _ => .error "missing landmark for SNA"

/-- Embeds `calculate_snb` (clinical_metrics.py:130-142): angle S-N-B. -/
noncomputable def calculate_snb (landmarks : Lm) : Except String ℝ :=
  match lookupLm landmarks "S", lookupLm landmarks "N", lookupLm landmarks "B" with
  | some s, some n, some b => .ok (calculate_angle_from_three_points s n b)
  | _, _, _ => .error "missing landmark for SNB"

/-- Embeds `calculate_anb` (clinical_metrics.py:144-149): ANB = SNA - SNB. -/
def calculate_anb (sna snb : ℝ) : ℝ := sna - snb

/-- Embeds `calculate_fma` (clinical_metrics.py:151-170): angle between
the Frankfort horizontal (Po-Or) and the mandibular plane (Go-Me). -/
noncomputable def calculate_fma (landmarks : Lm) : Except String ℝ :=
  match lookupLm landmarks "Po", lookupLm landmarks "Or",
      lookupLm landmarks "Go", lookupLm landmarks "Me" with
  | some po, some orp, some go, some me =>
      .ok (calculate_angle_between_lines po orp go me)
  | _, _, _, _ => .error "missing landmark for FMA"

/-- Embeds `assess_metric_status` (clinical_metrics.py:172-186). -/
noncomputable def assess_metric_status (value : ℝ) (normal_range : ℝ × ℝ) : String :=
  if value < normal_range.1 then "low"
  else if value > normal_range.2 then "high"
  else "normal"

/-- One metric record of the `compute_all_metrics` result dict (the constant
`description`/`clinical_significance` strings of the source are omitted). -/
structure MetricEntry where
  value : ℝ
  unit : String
  normal_range : ℝ × ℝ
  status : String

/-- The result dict of `compute_all_metrics`, keyed SNA/SNB/ANB/FMA. -/
structure MetricsResult where
  sna : MetricEntry
  snb : MetricEntry
  anb : MetricEntry
  fma : MetricEntry

/-- Embeds the `load_normal_ranges` fallback table
(clinical_metrics.py:23-37); the configuration resource is external to
the sources, so the built-in default ranges are the modelled behaviour. -/
def defaultNormalRanges : (ℝ × ℝ) × (ℝ × ℝ) × (ℝ × ℝ) × (ℝ × ℝ) :=
  ((80, 84), (78, 82), (0, 4), (25, 30))

/-- Embeds `compute_all_metrics` (clinical_metrics.py:188-235): computes the
four angles, then reports each with `round(value, 2)`, its unit, its normal
range and the status of the unrounded value against that range. -/
noncomputable def compute_all_metrics (landmarks : Lm) : Except String MetricsResult :=
  match calculate_sna landmarks, calculate_snb landmarks, calculate_fma landmarks with
  | .ok sna, .ok snb, .ok fma =>
      .ok
        { sna := ⟨round2 sna, "degrees", defaultNormalRanges.1,
            assess_metric_status sna defaultNormalRanges.1⟩
          snb := ⟨round2 snb, "degrees", defaultNormalRanges.2.1,
            assess_metric_status snb defaultNormalRanges.2.1⟩
          anb := ⟨round2 (calculate_anb sna snb), "degrees", defaultNormalRanges.2.2.1,
            assess_metric_status (calculate_anb sna snb) defaultNormalRanges.2.2.1⟩
          fma := ⟨round2 fma, "degrees", defaultNormalRanges.2.2.2,
            assess_metric_status fma defaultNormalRanges.2.2.2⟩ }
  | _, _, _ => .error "metric computation failed"

/-- Embeds `validate_landmarks` (clinical_metrics.py:237-251): the eight
required landmarks must be present (the numeric-type check of the source
holds trivially in the real-number model). -/
def validate_landmarks (lm : Lm) : Bool :=
  containsLm lm "S" && containsLm lm "N" && containsLm lm "A" && containsLm lm "B" &&
  containsLm lm "Po" && containsLm lm "Or" && containsLm lm "Go" && containsLm lm "Me"

/-- Embeds `compute_all` (clinical_metrics.py:254-259): validate, then
compute all metrics. -/
noncomputable def compute_all (lm : Lm) : Except String MetricsResult :=
  if validate_landmarks lm then compute_all_metrics lm else .error "missing required landmark"

/-- Reported SNA value of a metrics result (0 on error). -/
def snaValue : Except String MetricsResult → ℝ
  | .ok r => r.sna.value
  | .error _ => 0

/-- Reported SNB value of a metrics result (0 on error). -/
def snbValue : Except String MetricsResult → ℝ
  | .ok r => r.snb.value
  | .error _ => 0

/-- Reported ANB value of a metrics result (0 on error). -/
def anbValue : Except String MetricsResult → ℝ
  | .ok r => r.anb.value
  | .error _ => 0

/-- Unrounded SNA angle of a landmark mapping that has the required keys. -/
noncomputable def rawSNA (lm : Lm) : ℝ :=
  calculate_angle_from_three_points (getLm lm "S") (getLm lm "N") (getLm lm "A")

/-- Unrounded SNB angle of a landmark mapping that has the required keys. -/
noncomputable def rawSNB (lm : Lm) : ℝ :=
  calculate_angle_from_three_points (getLm lm "S") (getLm lm "N") (getLm lm "B")

/-- Concrete landmark mapping whose SNA and SNB angles round to 0.92 degrees
each while their difference rounds to 0.01 degrees: S-N horizontal, A and
B nearly collinear with it.  (Or, Po, Go, Me only make validation pass.) -/
def cexLandmarks : Lm :=
  [("N", ((0 : ℝ), (0 : ℝ))), ("S", (1, 0)), ("A", (100000, 1612)), ("B", (100000, 1600)),
   ("Po", (0, 1)), ("Or", (1, 1)), ("Go", (0, 2)), ("Me", (1, 2))]

/-- The demo landmark mapping of `test_with_demo_data`
(clinical_metrics.py:267-281), in 800x600 pixel coordinates; the primed
soft-tissue pogonion point is left out, no metric consumes it. -/
def demoLandmarks : Lm :=
  [("N", ((468 : ℝ), (115 : ℝ))), ("S", (340, 189)), ("A", (508, 291)), ("B", (484, 375)),
   ("Po", (276, 213)), ("Or", (412, 191)), ("Go", (324, 363)), ("Me", (484, 423)),
   ("Ar", (308, 267)), ("ANS", (516, 279)), ("PNS", (388, 285)),
   ("U1", (534, 317)), ("L1", (516, 351)), ("Ls", (580, 309)),
   ("Li", (556, 351)), ("Pog", (524, 399)), ("Gn", (500, 417)), ("Pn", (604, 273))]

/-! ## MalocclusionClassifier (src/core/multimodal_classifier.py) -/

/-- Metrics dict passed to the classifier: each entry optional with a
`value` field, exactly the shape `metrics.get(NAME, {}).get("value", d)`
reads from. -/
structure MetricsIn where
  sna : Option ℝ
  snb : Option ℝ
  anb : Option ℝ
  fma : Option ℝ

/-- Patient metadata dict: `age` and `sex` keys, each possibly absent. -/
structure Meta where
  age : Option ℤ
  sex : Option String

/-- Embeds `get_age_group` (multimodal_classifier.py:59-68). -/
def get_age_group (age : ℤ) : String :=
  if age ≤ 15 then "child"
  else if age ≤ 25 then "young_adult"
  else if age ≤ 40 then "adult"
  else "middle_aged"

/-- One row of `AGE_SEX_NORMS`: the (M, F, default) range triple. -/
abbrev NormRow := (ℝ × ℝ) × (ℝ × ℝ) × (ℝ × ℝ)

/-- The ANB rows of `AGE_SEX_NORMS` (multimodal_classifier.py:33-38). -/
def anbNorms (ag : String) : NormRow :=
  if ag = "child" then ((1.0, 5.0), (1.5, 5.5), (1.0, 5.0))
  else if ag = "young_adult" then ((0.5, 4.0), (1.0, 4.5), (0.5, 4.5))
  else if ag = "adult" then ((0.0, 3.5), (0.5, 4.0), (0.0, 4.0))
  else ((-0.5, 3.0), (0.0, 3.5), (-0.5, 3.5))

/-- The SNA rows of `AGE_SEX_NORMS` (multimodal_classifier.py:39-44). -/
def snaNorms (ag : String) : NormRow :=
  if ag = "child" then ((78, 86), (79, 87), (78, 87))
  else if ag = "young_adult" then ((79, 85), (80, 86), (79, 86))
  else if ag = "adult" then ((80, 84), (81, 85), (80, 85))
  else ((81, 83), (82, 84), (81, 84))

/-- The SNB rows of `AGE_SEX_NORMS` (multimodal_classifier.py:45-50). -/
def snbNorms (ag : String) : NormRow :=
  if ag = "child" then ((75, 83), (76, 84), (75, 84))
  else if ag = "young_adult" then ((76, 82), (77, 83), (76, 83))
  else if ag = "adult" then ((78, 82), (79, 83), (78, 83))
  else ((79, 81), (80, 82), (79, 82))

/-- The FMA rows of `AGE_SEX_NORMS` (multimodal_classifier.py:51-56). -/
def fmaNorms (ag : String) : NormRow :=
  if ag = "child" then ((22, 32), (23, 33), (22, 33))
  else if ag = "young_adult" then ((23, 31), (24, 32), (23, 32))
  else if ag = "adult" then ((25, 30), (26, 31), (25, 31))
  else ((26, 29), (27, 30), (26, 30))

/-- Sex selection inside a norms row: `norms[sex] if sex in norms else
norms["default"]`; the row keys are M, F and default, so the literal key
"default" also resolves to the default entry. -/
def pickSex (row : NormRow) (sex : String) : ℝ × ℝ :=
  if sex = "M" then row.1 else if sex = "F" then row.2.1 else row.2.2

/-- Embeds `get_personalized_normal_range` (multimodal_classifier.py:70-88).
For a metric outside the table, the source falls through to
`defaults.get(metric, (0, 10))`, whose keys are the same four metric
names, so the fallback is always (0, 10) there. -/
def get_personalized_normal_range (metric : String) (age : ℤ) (sex : String) : ℝ × ℝ :=
  if metric = "ANB" then pickSex (anbNorms (get_age_group age)) sex
  else if metric = "SNA" then pickSex (snaNorms (get_age_group age)) sex
  else if metric = "SNB" then pickSex (snbNorms (get_age_group age)) sex
  else if metric = "FMA" then pickSex (fmaNorms (get_age_group age)) sex
  else (0, 10)

/-- Embeds `calculate_personalized_deviation`
(multimodal_classifier.py:90-99). -/
noncomputable def calculate_personalized_deviation (value : ℝ) (metric : String)
    (age : ℤ) (sex : String) : ℝ :=
  if value < (get_personalized_normal_range metric age sex).1 then
    ((get_personalized_normal_range metric age sex).1 - value) /
      ((get_personalized_normal_range metric age sex).2 -
        (get_personalized_normal_range metric age sex).1)
  else if value > (get_personalized_normal_range metric age sex).2 then
    (value - (get_personalized_normal_range metric age sex).2) /
      ((get_personalized_normal_range metric age sex).2 -
        (get_personalized_normal_range metric age sex).1)
  else 0

/-- Embeds `enhanced_rule_based_classification`
(multimodal_classifier.py:101-134): classifies the ANB value against the
personalized range widened by 0.5 on each side, with the source's
confidence formulas. -/
noncomputable def enhanced_rule_based_classification (anb_value : ℝ) (age : ℤ)
    (sex : String) : ℕ × ℝ :=
  if anb_value > (get_personalized_normal_range "ANB" age sex).2 + 0.5 then
    (1, min 0.95 (0.6 + (anb_value - ((get_personalized_normal_range "ANB" age sex).2 + 0.5)) * 0.1))
  else if anb_value < (get_personalized_normal_range "ANB" age sex).1 - 0.5 then
    (2, min 0.95 (0.6 + (((get_personalized_normal_range "ANB" age sex).1 - 0.5) - anb_value) * 0.1))
  else
    (0, max 0.6 (0.9 -
      |anb_value - ((get_personalized_normal_range "ANB" age sex).1 +
          (get_personalized_normal_range "ANB" age sex).2) / 2| /
        (((get_personalized_normal_range "ANB" age sex).2 -
          (get_personalized_normal_range "ANB" age sex).1) / 2) * 0.3))

/-- The feature dict built by `extract_enhanced_features`
(multimodal_classifier.py:136-192); deviation features are present only
for metrics present in the input, hence optional. -/
structure Features where
  age : ℤ
  sexEncoded : ℝ
  ageGroup : ℕ
  sna : ℝ
  snb : ℝ
  anb : ℝ
  fma : ℝ
  anbDev : Option ℝ
  snaDev : Option ℝ
  snbDev : Option ℝ
  fmaDev : Option ℝ
  ageSexInteraction : ℝ
  growthStage : ℕ
  anbGrowthAdjusted : ℝ
  sagittalDiscrepancy : ℝ
  verticalPattern : ℕ
  sexAdjustedAnb : ℝ

/-- Embeds `extract_enhanced_features` (multimodal_classifier.py:136-192):
absent age defaults to 25, absent sex to "U", absent metric values to
82/80/2/27 respectively. -/
noncomputable def extract_enhanced_features (metrics : MetricsIn) (meta : Meta) : Features :=
  let age := meta.age.getD 25
  let sex := meta.sex.getD "U"
  let sexEncoded : ℝ := if sex = "M" then 1 else if sex = "F" then 2 else 1.5
  let ageGroup : ℕ :=
    if get_age_group age = "child" then 1
    else if get_age_group age = "young_adult" then 2
    else if get_age_group age = "adult" then 3
    else 4
  let sna := metrics.sna.getD 82
  let snb := metrics.snb.getD 80
  let anb := metrics.anb.getD 2
  let fma := metrics.fma.getD 27
  { age := age
    sexEncoded := sexEncoded
    ageGroup := ageGroup
    sna := sna
    snb := snb
    anb := anb
    fma := fma
    anbDev := metrics.anb.map (fun v => calculate_personalized_deviation v "ANB" age sex)
    snaDev := metrics.sna.map (fun v => calculate_personalized_deviation v "SNA" age sex)
    snbDev := metrics.snb.map (fun v => calculate_personalized_deviation v "SNB" age sex)
    fmaDev := metrics.fma.map (fun v => calculate_personalized_deviation v "FMA" age sex)
    ageSexInteraction := (age : ℝ) * sexEncoded
    growthStage := if age ≤ 18 then 1 else 0
    anbGrowthAdjusted := if age ≤ 18 then anb + ((18 : ℝ) - (age : ℝ)) * 0.1 else anb
    sagittalDiscrepancy := |anb - 2.0|
    verticalPattern := if fma > 30 then 1 else 0
    sexAdjustedAnb := if sex = "F" then anb - 0.5 else if sex = "M" then anb + 0.5 else anb }

/-- Softmax over three logits with the source's max-subtraction
stabilization (multimodal_classifier.py:241-243). -/
noncomputable def softmax3 (l : Fin 3 → ℝ) : Fin 3 → ℝ := fun i =>
  Real.exp (l i - max (max (l 0) (l 1)) (l 2)) /
    (Real.exp (l 0 - max (max (l 0) (l 1)) (l 2)) +
      Real.exp (l 1 - max (max (l 0) (l 1)) (l 2)) +
      Real.exp (l 2 - max (max (l 0) (l 1)) (l 2)))

/-- The logits assembled by `enhanced_ml_simulation`
(multimodal_classifier.py:194-239) before the softmax.  `g seed i` is the
i-th standard-normal draw of NumPy's `RandomState(seed)` stream, so
`rng.normal(0, s, 3)` consumes three consecutive draws scaled by `s`; the
combined seed is `(seed + abs(hash(str(sorted(features)))) % 10000) % 2^31`
with the process-stable Python hash supplied as `pyHash`. -/
noncomputable def mlLogits (features : Features) (seed : ℕ) (g : ℕ → ℕ → ℝ)
    (pyHash : Features → ℕ) : Fin 3 → ℝ :=
  let cs := (seed + pyHash features % 10000) % 2 ^ 31
  let anb := features.anb
  let anbDev := features.anbDev.getD 0
  let l0 : Fin 3 → ℝ := fun i => 0.8 * g cs i
  let l1 : Fin 3 → ℝ := fun i =>
    if anbDev > 0.5 then
      (if anb > 4 then (if i = 1 then l0 i + (1.5 + anbDev) else l0 i)
        else (if i = 2 then l0 i + (1.5 + anbDev) else l0 i))
    else if anbDev < 0.1 then (if i = 0 then l0 i + 1.0 else l0 i)
    else l0 i
  let l2 : Fin 3 → ℝ := fun i =>
    if features.ageGroup = 1 then l1 i + 0.3 * g cs (3 + (i : ℕ))
    else if features.ageGroup = 4 then (if i = 0 then l1 i + 0.3 else l1 i)
    else l1 i
  let l3 : Fin 3 → ℝ := fun i =>
    if features.sexEncoded = 2 then (if i = 1 then l2 i + 0.2 else l2 i)
    else if features.sexEncoded = 1 then (if i = 2 then l2 i + 0.2 else l2 i)
    else l2 i
  fun i =>
    if features.growthStage = 1 then
      l3 i + 0.2 * g cs ((if features.ageGroup = 1 then 6 else 3) + (i : ℕ))
    else l3 i

/-- Embeds `enhanced_ml_simulation` (multimodal_classifier.py:194-245):
softmax of the biased seeded logits. -/
noncomputable def enhanced_ml_simulation (features : Features) (seed : ℕ)
    (g : ℕ → ℕ → ℝ) (pyHash : Features → ℕ) : Fin 3 → ℝ :=
  softmax3 (mlLogits features seed g pyHash)

/-- Embeds `calculate_dynamic_weights` (multimodal_classifier.py:247-271):
base 0.6/0.4, shifted by ANB deviation and age, then normalized. -/
noncomputable def calculate_dynamic_weights (features : Features) : ℝ × ℝ :=
  let base : ℝ × ℝ :=
    if features.anbDev.getD 0 > 1.0 then (0.8, 0.2)
    else if features.anbDev.getD 0 > 0.5 then (0.7, 0.3)
    else (0.6, 0.4)
  let shifted : ℝ × ℝ := if features.age ≤ 15 then (base.1 - 0.1, base.2 + 0.1) else base
  (shifted.1 / (shifted.1 + shifted.2), shifted.2 / (shifted.1 + shifted.2))

/-- First-maximum index of three values, as `np.argmax` returns it. -/
noncomputable def argmax3 (p : Fin 3 → ℝ) : ℕ :=
  if p 1 > p 0 then (if p 2 > p 1 then 2 else 1) else (if p 2 > p 0 then 2 else 0)

/-- Maximum of three values, as `np.max` returns it. -/
noncomputable def max3 (p : Fin 3 → ℝ) : ℝ := max (max (p 0) (p 1)) (p 2)

/-- The `CLASS_LABELS` table (multimodal_classifier.py:19-23). -/
def classLabel : ℕ → String
  | 0 => "Class I"
  | 1 => "Class II"
  | 2 => "Class III"
  | _ => ""

/-- Fusion of the one-hot rule contribution with the statistical
probability vector, normalized by its own sum
(multimodal_classifier.py:306-312). -/
noncomputable def fusedProbs (ruleClass : ℕ) (ruleConf rw mw : ℝ) (mp : Fin 3 → ℝ) :
    Fin 3 → ℝ := fun i =>
  ((if (i : ℕ) = ruleClass then rw * ruleConf else 0) + mw * mp i) /
    (((if (0 : ℕ) = ruleClass then rw * ruleConf else 0) + mw * mp 0) +
      ((if (1 : ℕ) = ruleClass then rw * ruleConf else 0) + mw * mp 1) +
      ((if (2 : ℕ) = ruleClass then rw * ruleConf else 0) + mw * mp 2))

/-- The classification result dict (multimodal_classifier.py:324-356); the
Korean free-text rationale and explanation strings are omitted. -/
structure ClassifyResult where
  predicted_class : ℕ
  predicted_label : String
  confidence : ℝ
  probabilities : Fin 3 → ℝ
  anb_value : ℝ
  age_group : String
  sex : String
  normal_range_anb : ℝ × ℝ
  anb_deviation : ℝ
  rule_class : ℕ
  rule_confidence : ℝ
  model_class : ℕ
  model_confidence : ℝ
  rule_weight : ℝ
  model_weight : ℝ

/-- Embeds `EnhancedDemoClassifier.predict` (multimodal_classifier.py:281-358):
`meta=None` is replaced by the default dict, features are extracted, the
personalized rule stage and the seeded statistical stage run, dynamic
weights fuse them, and the final class is the argmax of the renormalized
probability vector. -/
noncomputable def classifier_predict (seed : ℕ) (g : ℕ → ℕ → ℝ) (pyHash : Features → ℕ)
    (metrics : MetricsIn) (meta : Option Meta) : ClassifyResult :=
  let md := meta.getD { age := some 25, sex := some "U" }
  let features := extract_enhanced_features metrics md
  let age := features.age
  let sex := md.sex.getD "U"
  let anbv := features.anb
  let rc := enhanced_rule_based_classification anbv age sex
  let mp := enhanced_ml_simulation features seed g pyHash
  let w := calculate_dynamic_weights features
  let fp := fusedProbs rc.1 rc.2 w.1 w.2 mp
  { predicted_class := argmax3 fp
    predicted_label := classLabel (argmax3 fp)
    confidence := max3 fp
    probabilities := fp
    anb_value := anbv
    age_group := get_age_group age
    sex := sex
    normal_range_anb := get_personalized_normal_range "ANB" age sex
    anb_deviation := features.anbDev.getD 0
    rule_class := rc.1
    rule_confidence := rc.2
    model_class := argmax3 mp
    model_confidence := max3 mp
    rule_weight := w.1
    model_weight := w.2 }

/-! ## LandmarkEstimator (src/core/demo_inference.py) -/

/-- The coarse image statistics computed by `analyze_image_characteristics`
(demo_inference.py:28-65) that the estimator actually consumes: mean and
standard deviation of brightness, dark/bright pixel fractions and the
edge-filter mean intensity.  They are inputs of the model because they
are pure functions of the raw pixels, which stay outside the embedding. -/
structure Stats where
  mean : ℝ
  stddev : ℝ
  darkFrac : ℝ
  brightFrac : ℝ
  edge : ℝ

/-- The estimator's construction-time configuration: the canonical demo
hash and shape (`demo_landmarks.json`) and the mean shape
(`mean_shape.json`), plus the seed (demo_inference.py:300-309). -/
structure InferCfg where
  demoHash : String
  demoLandmarks : Lm
  meanShape : Lm
  seed : ℕ

/-- Embeds `scale_normalized_landmarks` (demo_inference.py:189-198). -/
def scale_normalized_landmarks (normalized : Lm) (w h : ℕ) : Lm :=
  normalized.map (fun nv => (nv.1, ((nv.2.1 * (w : ℝ), nv.2.2 * (h : ℝ)) : Point)))

/-- Embeds `_ensure_anatomical_consistency` (demo_inference.py:123-168):
level the Frankfort horizontal when Or/Po differ vertically by more than
0.05, keep S/Or/Po below N by 0.02, keep Go/B/Pog/Gn above Me by 0.02,
and keep Po left of Or by 0.05, all as sequential dict updates. -/
noncomputable def ensure_anatomical_consistency (landmarks : Lm) : Lm :=
  let c1 :=
    match lookupLm landmarks "Or", lookupLm landmarks "Po" with
    | some o, some p =>
        if |o.2 - p.2| > 0.05 then
          updateLm (updateLm landmarks "Or" (o.1, (o.2 + p.2) / 2)) "Po" (p.1, (o.2 + p.2) / 2)
        else landmarks
    | _, _ => landmarks
  let c2 :=
    match lookupLm c1 "N" with
    | some n =>
        List.foldl (fun acc nm =>
          match lookupLm acc nm with
          | some q => if q.2 < n.2 then updateLm acc nm (q.1, n.2 + 0.02) else acc
          | none => acc) c1 ["S", "Or", "Po"]
    | none => c1
  let c3 :=
    match lookupLm c2 "Me" with
    | some m =>
        List.foldl (fun acc nm =>
          match lookupLm acc nm with
          | some q => if q.2 > m.2 then updateLm acc nm (q.1, m.2 - 0.02) else acc
          | none => acc) c2 ["Go", "B", "Pog", "Gn"]
    | none => c2
  match lookupLm c3 "Po", lookupLm c3 "Or" with
  | some p, some o => if p.1 > o.1 then updateLm c3 "Po" (o.1 - 0.05, p.2) else c3
  | _, _ => c3

/-- Embeds `adaptive_landmark_adjustment` (demo_inference.py:80-121):
aspect-driven horizontal/vertical compression, brightness-driven nudges,
then the anatomical-consistency pass. -/
noncomputable def adaptive_landmark_adjustment (normalized : Lm) (aspect meanB : ℝ) : Lm :=
  let a1 :=
    if aspect > 1.5 then
      normalized.map (fun nv =>
        if nv.1 = "Pn" ∨ nv.1 = "Ls" ∨ nv.1 = "Li" ∨ nv.1 = "A" ∨ nv.1 = "B" ∨ nv.1 = "ANS"
        then (nv.1, ((nv.2.1 * 0.9, nv.2.2) : Point)) else nv)
    else if aspect < 1.1 then
      normalized.map (fun nv => (nv.1, ((nv.2.1, nv.2.2 * 0.95) : Point)))
    else normalized
  let a2 :=
    if meanB < 60 then
      a1.map (fun nv =>
        if nv.1 = "S" ∨ nv.1 = "ANS" ∨ nv.1 = "PNS"
        then (nv.1, ((nv.2.1, nv.2.2 * 0.98) : Point)) else nv)
    else if meanB > 180 then
      a1.map (fun nv =>
        if nv.1 = "N" ∨ nv.1 = "A" ∨ nv.1 = "B" ∨ nv.1 = "Pog"
        then (nv.1, ((nv.2.1 * 1.02, nv.2.2) : Point)) else nv)
    else a1
  ensure_anatomical_consistency a2

/-- Draw loop of `add_intelligent_jitter` (demo_inference.py:218-229):
landmark `i` in insertion order consumes draws `2i` and `2i+1`, scaled by
its difficulty-tier sigma. -/
noncomputable def jitter_points (g : ℕ → ℕ → ℝ) (seed : ℕ) (adaptiveSigma : ℝ) :
    Lm → ℕ → Lm
  | [], _ => []
  | nv :: rest, i =>
      (nv.1, ((nv.2.1 + (if nv.1 = "N" ∨ nv.1 = "Me" ∨ nv.1 = "Go" then adaptiveSigma * 0.7
            else if nv.1 = "Or" ∨ nv.1 = "Po" ∨ nv.1 = "PNS" then adaptiveSigma * 1.3
            else adaptiveSigma) * g seed (2 * i),
          nv.2.2 + (if nv.1 = "N" ∨ nv.1 = "Me" ∨ nv.1 = "Go" then adaptiveSigma * 0.7
            else if nv.1 = "Or" ∨ nv.1 = "Po" ∨ nv.1 = "PNS" then adaptiveSigma * 1.3
            else adaptiveSigma) * g seed (2 * i + 1)) : Point)) ::
        jitter_points g seed adaptiveSigma rest (i + 1)

/-- Embeds `add_intelligent_jitter` (demo_inference.py:200-231): a fresh
`RandomState(seed)` stream `g seed`, with sigma adapted to edge intensity
(quality factor clamped to [0.5, 2]) and to the landmark difficulty tier.
The brightness standard deviation is read but unused in the source. -/
noncomputable def add_intelligent_jitter (points : Lm) (chars : Stats) (sigmaBase : ℝ)
    (seed : ℕ) (g : ℕ → ℕ → ℝ) : Lm :=
  jitter_points g seed (sigmaBase * (2 - min 2 (max 0.5 (chars.edge / 30)))) points 0

/-- Embeds `clamp_points_to_image` (demo_inference.py:233-244). -/
noncomputable def clamp_points_to_image (points : Lm) (w h : ℕ) (margin : ℝ) : Lm :=
  points.map (fun nv =>
    (nv.1, ((max margin (min nv.2.1 ((w : ℝ) - margin)),
        max margin (min nv.2.2 ((h : ℝ) - margin))) : Point)))

/-- Embeds `ImprovedDemoInference.predict_landmarks`
(demo_inference.py:311-368).  The image is characterized by its content
hash, dimensions and `Stats` (the only data the source reads from it).
Exact hash match selects the precomputed canonical shape (anchors are
never consulted there); otherwise the mean shape is adaptively adjusted,
scaled, and — when the caller supplies both Or and Po anchors — remapped
by the similarity transform.  Jitter and margin-5 clamping always follow. -/
noncomputable def predict_landmarks (cfg : InferCfg) (g : ℕ → ℕ → ℝ) (imgHash : String)
    (w h : ℕ) (stats : Stats) (anchors : Option Lm) : Lm × String :=
  let pre :=
    if imgHash = cfg.demoHash then
      (scale_normalized_landmarks cfg.demoLandmarks w h, "precomputed")
    else
      let scaled := scale_normalized_landmarks
        (adaptive_landmark_adjustment cfg.meanShape ((w : ℝ) / (h : ℝ)) stats.mean) w h
      match anchors with
      | some a =>
          if containsLm a "Or" && containsLm a "Po" then
            (similarity_transform_2d scaled (getLm scaled "Or") (getLm scaled "Po")
              (getLm a "Or") (getLm a "Po"), "manual_corrected")
          else (scaled, "adaptive_heuristic")
      | none => (scaled, "adaptive_heuristic")
  (clamp_points_to_image (add_intelligent_jitter pre.1 stats 1.5 cfg.seed g) w h 5, pre.2)

/-! ## Orchestrator (src/core/integration_pipeline.py) -/

/-- A raised Python exception: its class name and message. -/
structure PyErr where
  ename : String
  emsg : String

/-- The machine-readable error record of a failed run
(integration_pipeline.py:266, 272, 337-340): the catch-all handler emits
only type and message, the init paths additionally a stage. -/
structure ErrRec where
  etype : String
  message : String
  stage : Option String

/-- The result record of `CephalometricPipeline.run`; run identifier,
timestamps and timing entries are outside the model. -/
structure RunResult where
  success : Bool
  error : Option ErrRec
  inference_mode : Option String
  clinical : Option MetricsResult
  classification : Option ClassifyResult

/-- Construction-time state of the pipeline: a recorded init error, and
whether the two components were constructed (integration_pipeline.py:
113-135). -/
structure PipelineState where
  initError : Option (String × String)
  engineOk : Bool
  classifierOk : Bool
  cfg : InferCfg
  seed : ℕ

/-- The image-facing input of one run: content hash, dimensions, coarse
statistics, optional anchors and optional metadata. -/
structure RunInput where
  imgHash : String
  width : ℕ
  height : ℕ
  stats : Stats
  anchors : Option Lm
  meta : Option Meta

/-- Embeds `_ensure_pil_image` (integration_pipeline.py:154-172) for an
already-decoded image: reject dimensions below 100 with a ValueError
(the path/decoding branches are outside the embedding). -/
def ensure_pil_image (w h : ℕ) : Except PyErr Unit :=
  if w < 100 ∨ h < 100 then .error ⟨"ValueError", "image too small"⟩ else .ok ()

/-- The clinical-metrics dict handed from the pipeline to the classifier:
all four metric values present. -/
def metricsOf (r : MetricsResult) : MetricsIn :=
  ⟨some r.sna.value, some r.snb.value, some r.anb.value, some r.fma.value⟩

/-- Embeds `CephalometricPipeline.run` (integration_pipeline.py:248-341):
a recorded init error or a missing component returns a failure with
stage "init"; otherwise the stages run under the catch-all handler, which
converts any raised exception into `success := false` with an error
record carrying only type and message (no stage field). -/
noncomputable def pipeline_run (st : PipelineState) (g gc : ℕ → ℕ → ℝ)
    (ph : Features → ℕ) (inp : RunInput) : RunResult :=
  match st.initError with
  | some e =>
      { success := false, error := some ⟨e.1, e.2, some "init"⟩,
        inference_mode := none, clinical := none, classification := none }
  | none =>
      if st.engineOk && st.classifierOk then
        match ensure_pil_image inp.width inp.height with
        | .error e =>
            { success := false, error := some ⟨e.ename, e.emsg, none⟩,
              inference_mode := none, clinical := none, classification := none }
        | .ok _ =>
            let lm := predict_landmarks st.cfg g inp.imgHash inp.width inp.height
              inp.stats inp.anchors
            match compute_all lm.1 with
            | .error msg =>
                { success := false, error := some ⟨"ValueError", msg, none⟩,
                  inference_mode := none, clinical := none, classification := none }
            | .ok clinical =>
                { success := true, error := none,
                  inference_mode := some lm.2, clinical := some clinical,
                  classification :=
                    some (classifier_predict st.seed gc ph (metricsOf clinical) inp.meta) }
      else
        { success := false,
          error := some ⟨"ComponentMissing", "component not initialized", some "init"⟩,
          inference_mode := none, clinical := none, classification := none }

/-- A healthy pipeline state over a trivial configuration. -/
def okState : PipelineState := ⟨none, true, true, ⟨"h", [], [], 42⟩, 42⟩

/-- Neutral image statistics used by concrete witnesses. -/
noncomputable def stats0 : Stats := ⟨128, 10, 1 / 5, 1 / 5, 30⟩

/-- A run input whose 50x50 image fails the minimum-size validation. -/
noncomputable def tinyInput : RunInput := ⟨"x", 50, 50, stats0, none, none⟩

/-- Caller-supplied Or/Po anchor coordinates for the C5 scenarios. -/
def cexAnchors : Lm := [("Or", ((400 : ℝ), (200 : ℝ))), ("Po", (300, 210))]

/-- Metrics dict with every metric absent. -/
def emptyMetrics : MetricsIn := ⟨none, none, none, none⟩

/-- Trivial stand-in for the PRNG draw stream, used by witnesses. -/
def gZero : ℕ → ℕ → ℝ := fun _ _ => 0

/-- Trivial stand-in for the Python feature hash, used by witnesses. -/
def hashZero : Features → ℕ := fun _ => 0

end Ceph

namespace Ceph

/-! ## C9: angle-at-vertex safety -/

/-- C9. For all points `p1 p2 p3` the three-point angle is a real number in
[0, 180] degrees (so in particular it is never NaN and the embedded
function is total, mirroring that the source clamps the cosine before
`acos` and never raises), and whenever either ray from the vertex `p2`
has zero length — in particular for `angle(p, p, q)` — it is exactly 0. -/
theorem angle_at_vertex_safe (p1 p2 p3 : Point) :
    (0 ≤ calculate_angle_from_three_points p1 p2 p3 ∧
      calculate_angle_from_three_points p1 p2 p3 ≤ 180) ∧
    ((p1 = p2 ∨ p3 = p2) → calculate_angle_from_three_points p1 p2 p3 = 0) := by
  constructor
  · unfold calculate_angle_from_three_points
    split_ifs with h
    · norm_num
    · constructor
      · apply div_nonneg _ Real.pi_pos.le
        exact mul_nonneg (Real.arccos_nonneg _) (by norm_num)
      · rw [div_le_iff₀ Real.pi_pos]
        have h1 := Real.arccos_le_pi (max (-1)
          (min 1 (((p1.1 - p2.1) * (p3.1 - p2.1) + (p1.2 - p2.2) * (p3.2 - p2.2)) /
            (Real.sqrt ((p1.1 - p2.1) ^ 2 + (p1.2 - p2.2) ^ 2) *
              Real.sqrt ((p3.1 - p2.1) ^ 2 + (p3.2 - p2.2) ^ 2)))))
        nlinarith [Real.pi_pos]
  · intro h
    unfold calculate_angle_from_three_points
    rw [if_pos]
    rcases h with h | h
    · left
      rw [h]
      simp
    · right
      rw [h]
      simp

/-- C9 witness: the degenerate call `angle((1,1), (1,1), (2,3))` returns
exactly 0. -/
theorem angle_at_vertex_safe_witness :
    calculate_angle_from_three_points ((1 : ℝ), (1 : ℝ)) (1, 1) (2, 3) = 0 :=
  (angle_at_vertex_safe (1, 1) (1, 1) (2, 3)).2 (Or.inl rfl)

/-! ## C1: reported ANB versus reported SNA minus reported SNB -/

/-- Rounding to two decimals moves a value by at most half a cent. -/
lemma abs_round2_sub_le (t : ℝ) : |round2 t - t| ≤ 1 / 200 := by
  unfold round2
  have h : |t * 100 - ((round (t * 100) : ℤ) : ℝ)| ≤ 1 / 2 := abs_sub_round (t * 100)
  rw [abs_sub_comm] at h
  have e : ((round (t * 100) : ℤ) : ℝ) / 100 - t =
      (((round (t * 100) : ℤ) : ℝ) - t * 100) / 100 := by ring
  rw [e, abs_div, abs_of_nonneg (by norm_num : (0 : ℝ) ≤ 100)]
  linarith

/-- Evaluation rule for `round2` on a window that pins the rounded cent. -/
lemma round2_eq_int (x : ℝ) (n : ℤ) (h1 : (n : ℝ) ≤ x * 100 + 1 / 2)
    (h2 : x * 100 + 1 / 2 < (n : ℝ) + 1) : round2 x = (n : ℝ) / 100 := by
  unfold round2
  have hfl : round (x * 100) = n := by
    rw [round_eq]
    exact Int.floor_eq_iff.mpr ⟨h1, by linarith⟩
  rw [hfl]

/-- A key that `containsLm` confirms has a stored point. -/
lemma lookup_of_contains {lm : Lm} {k : String} (h : containsLm lm k = true) :
    ∃ p, lookupLm lm k = some p := by
  unfold containsLm at h
  exact Option.isSome_iff_exists.mp h

/-- On a validated landmark mapping, `compute_all` reports the rounded raw
angles, and ANB is the rounded algebraic difference of the raw angles. -/
lemma compute_all_values (lm : Lm) (h : validate_landmarks lm = true) :
    anbValue (compute_all lm) = round2 (rawSNA lm - rawSNB lm) ∧
    snaValue (compute_all lm) = round2 (rawSNA lm) ∧
    snbValue (compute_all lm) = round2 (rawSNB lm) := by
  have h0 := h
  unfold validate_landmarks at h
  simp only [Bool.and_eq_true] at h
  obtain ⟨⟨⟨⟨⟨⟨⟨hS, hN⟩, hA⟩, hB⟩, hPo⟩, hOr⟩, hGo⟩, hMe⟩ := h
  obtain ⟨s, hs⟩ := lookup_of_contains hS
  obtain ⟨n, hn⟩ := lookup_of_contains hN
  obtain ⟨a, ha⟩ := lookup_of_contains hA
  obtain ⟨b, hb⟩ := lookup_of_contains hB
  obtain ⟨po, hpo⟩ := lookup_of_contains hPo
  obtain ⟨orp, hor⟩ := lookup_of_contains hOr
  obtain ⟨go, hgo⟩ := lookup_of_contains hGo
  obtain ⟨me, hme⟩ := lookup_of_contains hMe
  unfold compute_all
  rw [h0]
  unfold compute_all_metrics calculate_sna calculate_snb calculate_fma
  rw [hs, hn, ha, hb, hpo, hor, hgo, hme]
  unfold anbValue snaValue snbValue calculate_anb rawSNA rawSNB getLm
  rw [hs, hn, ha, hb]
  exact ⟨rfl, rfl, rfl⟩

/-- Reduction of the embedded angle for a horizontal first ray. -/
lemma angle_horiz (X Y : ℝ) (hX : 0 < X) :
    calculate_angle_from_three_points (1, 0) (0, 0) (X, Y) =
      Real.arccos (X / Real.sqrt (X ^ 2 + Y ^ 2)) * 180 / Real.pi := by
  have hS : (0 : ℝ) < X ^ 2 + Y ^ 2 := by positivity
  have hsq : 0 < Real.sqrt (X ^ 2 + Y ^ 2) := Real.sqrt_pos.mpr hS
  have hc0 : 0 ≤ X / Real.sqrt (X ^ 2 + Y ^ 2) := by positivity
  have hc1 : X / Real.sqrt (X ^ 2 + Y ^ 2) ≤ 1 := by
    rw [div_le_one hsq]
    exact (Real.le_sqrt hX.le hS.le).mpr (by nlinarith)
  have e1 : (((1 : ℝ), (0 : ℝ)).1 - ((0 : ℝ), (0 : ℝ)).1) ^ 2 +
      (((1 : ℝ), (0 : ℝ)).2 - ((0 : ℝ), (0 : ℝ)).2) ^ 2 = 1 := by norm_num
  have e2 : ((X, Y).1 - ((0 : ℝ), (0 : ℝ)).1) ^ 2 +
      ((X, Y).2 - ((0 : ℝ), (0 : ℝ)).2) ^ 2 = X ^ 2 + Y ^ 2 := by ring
  unfold calculate_angle_from_three_points
  rw [e1, e2, Real.sqrt_one]
  rw [if_neg (by push_neg; exact ⟨one_ne_zero, ne_of_gt hsq⟩)]
  have e3 : (((1 : ℝ), (0 : ℝ)).1 - ((0 : ℝ), (0 : ℝ)).1) * ((X, Y).1 - ((0 : ℝ), (0 : ℝ)).1) +
      (((1 : ℝ), (0 : ℝ)).2 - ((0 : ℝ), (0 : ℝ)).2) * ((X, Y).2 - ((0 : ℝ), (0 : ℝ)).2) = X := by
    norm_num
  rw [e3, one_mul, min_eq_right hc1, max_eq_right (by linarith)]

/-- Lower bound on the normalized-cosine quotient via squaring. -/
lemma ratio_gt (X Y U : ℝ) (hX : 0 < X)
    (h : U ^ 2 * (X ^ 2 + Y ^ 2) < X ^ 2) :
    U < X / Real.sqrt (X ^ 2 + Y ^ 2) := by
  have hS : (0 : ℝ) < X ^ 2 + Y ^ 2 := by positivity
  have hsq : 0 < Real.sqrt (X ^ 2 + Y ^ 2) := Real.sqrt_pos.mpr hS
  rw [lt_div_iff₀ hsq]
  have h2 : (U * Real.sqrt (X ^ 2 + Y ^ 2)) ^ 2 < X ^ 2 := by
    rw [mul_pow, Real.sq_sqrt hS.le]
    exact h
  exact lt_of_pow_lt_pow_left₀ 2 hX.le h2

/-- Upper bound on the normalized-cosine quotient via squaring. -/
lemma ratio_lt (X Y L : ℝ) (hS : (0 : ℝ) < X ^ 2 + Y ^ 2)
    (hL : 0 ≤ L) (h : X ^ 2 < L ^ 2 * (X ^ 2 + Y ^ 2)) :
    X / Real.sqrt (X ^ 2 + Y ^ 2) < L := by
  have hsq : 0 < Real.sqrt (X ^ 2 + Y ^ 2) := Real.sqrt_pos.mpr hS
  rw [div_lt_iff₀ hsq]
  have h2 : X ^ 2 < (L * Real.sqrt (X ^ 2 + Y ^ 2)) ^ 2 := by
    rw [mul_pow, Real.sq_sqrt hS.le]
    exact h
  exact lt_of_pow_lt_pow_left₀ 2 (by positivity) h2

/-- Certified degree window for `arccos`: rational proxies `q1 ≥ d1·π/180`
and `q2 ≤ d2·π/180` plus quartic Taylor bounds on their cosines pin
`arccos c · 180 / π` strictly between `d1` and `d2`. -/
lemma arccos_deg_window (c d1 d2 q1 q2 : ℝ)
    (hc0 : 0 ≤ c) (hc1 : c ≤ 1) (hd1 : 0 ≤ d1)
    (hq2pos : 0 ≤ q2) (hq2le : q2 ≤ d2 * Real.pi / 180)
    (hd2pi : d2 * Real.pi / 180 ≤ Real.pi) (hq2one : |q2| ≤ 1)
    (hq1ge : d1 * Real.pi / 180 ≤ q1) (hq1one : |q1| ≤ 1) (hq1pos : 0 ≤ q1)
    (hup : 1 - q2 ^ 2 / 2 + q2 ^ 4 * (5 / 96) < c)
    (hlo : c < 1 - q1 ^ 2 / 2 - q1 ^ 4 * (5 / 96)) :
    d1 < Real.arccos c * 180 / Real.pi ∧ Real.arccos c * 180 / Real.pi < d2 := by
  have hπ := Real.pi_pos
  have habs2 : |q2| = q2 := abs_of_nonneg hq2pos
  have habs1 : |q1| = q1 := abs_of_nonneg hq1pos
  have hq1le1 : q1 ≤ 1 := by rw [← habs1]; exact hq1one
  have hq1pi : q1 ≤ Real.pi := hq1le1.trans (by linarith [Real.pi_gt_three])
  -- upper side: arccos c < d2·π/180
  have hcosq2 : Real.cos q2 ≤ 1 - q2 ^ 2 / 2 + q2 ^ 4 * (5 / 96) := by
    have h := (abs_le.mp (Real.cos_bound hq2one)).2
    rw [habs2] at h
    linarith
  have hcosd2 : Real.cos (d2 * Real.pi / 180) ≤ Real.cos q2 :=
    Real.cos_le_cos_of_nonneg_of_le_pi hq2pos hd2pi hq2le
  have h1 : Real.cos (d2 * Real.pi / 180) < c := by linarith
  have hup' : Real.arccos c < d2 * Real.pi / 180 := by
    by_contra hcon
    push_neg at hcon
    have hle : Real.cos (Real.arccos c) ≤ Real.cos (d2 * Real.pi / 180) :=
      Real.cos_le_cos_of_nonneg_of_le_pi (le_trans hq2pos hq2le)
        (Real.arccos_le_pi c) hcon
    rw [Real.cos_arccos (by linarith) hc1] at hle
    linarith
  -- lower side: d1·π/180 < arccos c
  have hcosq1 : 1 - q1 ^ 2 / 2 - q1 ^ 4 * (5 / 96) ≤ Real.cos q1 := by
    have h := (abs_le.mp (Real.cos_bound hq1one)).1
    rw [habs1] at h
    linarith
  have hcosd1 : Real.cos q1 ≤ Real.cos (d1 * Real.pi / 180) :=
    Real.cos_le_cos_of_nonneg_of_le_pi (by positivity) hq1pi hq1ge
  have h2 : c < Real.cos (d1 * Real.pi / 180) := by linarith
  have hlo' : d1 * Real.pi / 180 < Real.arccos c := by
    by_contra hcon
    push_neg at hcon
    have hle : Real.cos (d1 * Real.pi / 180) ≤ Real.cos (Real.arccos c) :=
      Real.cos_le_cos_of_nonneg_of_le_pi (Real.arccos_nonneg c)
        (le_trans hq1ge hq1pi) hcon
    rw [Real.cos_arccos (by linarith) hc1] at hle
    linarith
  constructor
  · rw [lt_div_iff₀ hπ]
    linarith
  · rw [div_lt_iff₀ hπ]
    linarith

/-- The SNA angle of the counterexample mapping lies in (0.9230, 0.9240). -/
lemma cex_sna_window :
    (9230 : ℝ) / 10000 < calculate_angle_from_three_points (1, 0) (0, 0) (100000, 1612) ∧
    calculate_angle_from_three_points (1, 0) (0, 0) (100000, 1612) < (9240 : ℝ) / 10000 := by
  rw [angle_horiz 100000 1612 (by norm_num)]
  have hS : (0 : ℝ) < (100000 : ℝ) ^ 2 + (1612 : ℝ) ^ 2 := by norm_num
  have hplo : (3141592 : ℝ) / 1000000 < Real.pi := by
    have := Real.pi_gt_d6
    norm_num at this ⊢
    linarith
  have hphi : Real.pi < (3141593 : ℝ) / 1000000 := by
    have := Real.pi_lt_d6
    norm_num at this ⊢
    linarith
  refine arccos_deg_window _ (9230 / 10000) (9240 / 10000)
      (9230 / 10000 * (3141593 / 1000000) / 180) (9240 / 10000 * (3141592 / 1000000) / 180)
      (by positivity) ?_ (by norm_num) (by norm_num) (by nlinarith) (by nlinarith [Real.pi_pos])
      (by rw [abs_of_nonneg (by norm_num)]; norm_num) (by nlinarith)
      (by rw [abs_of_nonneg (by norm_num)]; norm_num) (by norm_num) ?_ ?_
  · rw [div_le_one (Real.sqrt_pos.mpr hS)]
    exact (Real.le_sqrt (by norm_num) hS.le).mpr (by norm_num)
  · exact ratio_gt 100000 1612 _ (by norm_num) (by norm_num)
  · exact ratio_lt 100000 1612 _ hS (by norm_num) (by norm_num)

/-- The SNB angle of the counterexample mapping lies in (0.9160, 0.9170). -/
lemma cex_snb_window :
    (9160 : ℝ) / 10000 < calculate_angle_from_three_points (1, 0) (0, 0) (100000, 1600) ∧
    calculate_angle_from_three_points (1, 0) (0, 0) (100000, 1600) < (9170 : ℝ) / 10000 := by
  rw [angle_horiz 100000 1600 (by norm_num)]
  have hS : (0 : ℝ) < (100000 : ℝ) ^ 2 + (1600 : ℝ) ^ 2 := by norm_num
  have hplo : (3141592 : ℝ) / 1000000 < Real.pi := by
    have := Real.pi_gt_d6
    norm_num at this ⊢
    linarith
  have hphi : Real.pi < (3141593 : ℝ) / 1000000 := by
    have := Real.pi_lt_d6
    norm_num at this ⊢
    linarith
  refine arccos_deg_window _ (9160 / 10000) (9170 / 10000)
      (9160 / 10000 * (3141593 / 1000000) / 180) (9170 / 10000 * (3141592 / 1000000) / 180)
      (by positivity) ?_ (by norm_num) (by norm_num) (by nlinarith) (by nlinarith [Real.pi_pos])
      (by rw [abs_of_nonneg (by norm_num)]; norm_num) (by nlinarith)
      (by rw [abs_of_nonneg (by norm_num)]; norm_num) (by norm_num) ?_ ?_
  · rw [div_le_one (Real.sqrt_pos.mpr hS)]
    exact (Real.le_sqrt (by norm_num) hS.le).mpr (by norm_num)
  · exact ratio_gt 100000 1600 _ (by norm_num) (by norm_num)
  · exact ratio_lt 100000 1600 _ hS (by norm_num) (by norm_num)

/-- C1 counterexample: on `cexLandmarks` the metrics result of `compute_all`
reports SNA = 0.92, SNB = 0.92 and ANB = 0.01, so the reported ANB does not
equal the reported SNA minus the reported SNB: the per-metric rounding to
two decimals (clinical_metrics.py:224) breaks the reported-value identity
even though ANB is computed as the algebraic difference before rounding. -/
theorem anb_reported_difference_cex :
    anbValue (compute_all cexLandmarks) = 1 / 100 ∧
    snaValue (compute_all cexLandmarks) = 92 / 100 ∧
    snbValue (compute_all cexLandmarks) = 92 / 100 ∧
    ¬ (anbValue (compute_all cexLandmarks) =
        snaValue (compute_all cexLandmarks) - snbValue (compute_all cexLandmarks)) := by
  have hval : validate_landmarks cexLandmarks = true := by decide
  obtain ⟨h1, h2, h3⟩ := compute_all_values cexLandmarks hval
  have hA : rawSNA cexLandmarks = calculate_angle_from_three_points (1, 0) (0, 0) (100000, 1612) :=
    rfl
  have hB : rawSNB cexLandmarks = calculate_angle_from_three_points (1, 0) (0, 0) (100000, 1600) :=
    rfl
  obtain ⟨wA1, wA2⟩ := cex_sna_window
  obtain ⟨wB1, wB2⟩ := cex_snb_window
  rw [hA, hB] at h1
  rw [hA] at h2
  rw [hB] at h3
  have r1 : round2 (calculate_angle_from_three_points (1, 0) (0, 0) (100000, 1612) -
      calculate_angle_from_three_points (1, 0) (0, 0) (100000, 1600)) = ((1 : ℤ) : ℝ) / 100 :=
    round2_eq_int _ 1 (by push_cast; linarith) (by push_cast; linarith)
  have r2 : round2 (calculate_angle_from_three_points (1, 0) (0, 0) (100000, 1612)) =
      ((92 : ℤ) : ℝ) / 100 :=
    round2_eq_int _ 92 (by push_cast; linarith) (by push_cast; linarith)
  have r3 : round2 (calculate_angle_from_three_points (1, 0) (0, 0) (100000, 1600)) =
      ((92 : ℤ) : ℝ) / 100 :=
    round2_eq_int _ 92 (by push_cast; linarith) (by push_cast; linarith)
  rw [r1] at h1
  rw [r2] at h2
  rw [r3] at h3
  rw [h1, h2, h3]
  norm_num

/-- C1 amended: for every landmark mapping containing the required
landmarks, the ANB value reported by `compute_all` is the algebraic
difference SNA - SNB of the unrounded angles, rounded to two decimals;
because SNA and SNB are rounded independently, the reported values obey
|ANB - (SNA - SNB)| ≤ 0.015 rather than exact equality. -/
theorem anb_rounded_algebraic_difference (lm : Lm) (h : validate_landmarks lm = true) :
    anbValue (compute_all lm) = round2 (rawSNA lm - rawSNB lm) ∧
    |anbValue (compute_all lm) -
        (snaValue (compute_all lm) - snbValue (compute_all lm))| ≤ 3 / 200 := by
  obtain ⟨h1, h2, h3⟩ := compute_all_values lm h
  refine ⟨h1, ?_⟩
  rw [h1, h2, h3]
  have b1 := abs_round2_sub_le (rawSNA lm - rawSNB lm)
  have b2 := abs_round2_sub_le (rawSNA lm)
  have b3 := abs_round2_sub_le (rawSNB lm)
  rw [abs_le] at b1 b2 b3 ⊢
  constructor <;> linarith [b1.1, b1.2, b2.1, b2.2, b3.1, b3.2]

/-- C1 witness: the amended theorem applied to the demo landmark mapping. -/
theorem anb_rounded_algebraic_difference_witness :
    validate_landmarks demoLandmarks = true ∧
    (anbValue (compute_all demoLandmarks) =
        round2 (rawSNA demoLandmarks - rawSNB demoLandmarks) ∧
      |anbValue (compute_all demoLandmarks) -
          (snaValue (compute_all demoLandmarks) - snbValue (compute_all demoLandmarks))| ≤
        3 / 200) :=
  ⟨by decide, anb_rounded_algebraic_difference demoLandmarks (by decide)⟩

/-! ## C2: missing ANB metric is defaulted, not fatal -/

/-- C2 counterexample: with every metric absent from the input, the
classifier does not fail — `classifier_predict` is total and the result
records the substituted default ANB value 2 (the source reads
`metrics.get("ANB", {}).get("value", 2)`, multimodal_classifier.py:153);
no `MissingMetricError` exists anywhere in the sources. -/
theorem missing_anb_defaulted_cex :
    (classifier_predict 42 gZero hashZero emptyMetrics
      (some { age := some 30, sex := some "M" })).anb_value = 2 := rfl

/-- C2 amended: for every metrics input with the ANB metric absent,
classification succeeds and silently substitutes the default ANB value 2
rather than failing with an error. -/
theorem missing_anb_defaulted (seed : ℕ) (g : ℕ → ℕ → ℝ) (ph : Features → ℕ)
    (metrics : MetricsIn) (meta : Option Meta) (h : metrics.anb = none) :
    (classifier_predict seed g ph metrics meta).anb_value = 2 := by
  obtain ⟨ms, mb, ma, mf⟩ := metrics
  simp only at h
  subst h
  rfl

/-- C2 witness: the amended theorem applied at the all-absent input. -/
theorem missing_anb_defaulted_witness :
    emptyMetrics.anb = none ∧
    (classifier_predict 42 gZero hashZero emptyMetrics none).anb_value = 2 :=
  ⟨rfl, missing_anb_defaulted 42 gZero hashZero emptyMetrics none rfl⟩

/-! ## C6: personalized rule stage -/

/-- A norms row whose three entries are nonempty ranges yields a nonempty
range for every sex key. -/
lemma pickSex_le (row : NormRow) (sex : String)
    (h1 : row.1.1 ≤ row.1.2) (h2 : row.2.1.1 ≤ row.2.1.2) (h3 : row.2.2.1 ≤ row.2.2.2) :
    (pickSex row sex).1 ≤ (pickSex row sex).2 := by
  unfold pickSex
  split_ifs <;> assumption

/-- All ANB rows hold nonempty ranges. -/
lemma anbNorms_rows_le (ag : String) :
    (anbNorms ag).1.1 ≤ (anbNorms ag).1.2 ∧ (anbNorms ag).2.1.1 ≤ (anbNorms ag).2.1.2 ∧
      (anbNorms ag).2.2.1 ≤ (anbNorms ag).2.2.2 := by
  unfold anbNorms
  split_ifs <;> norm_num

/-- All SNA rows hold nonempty ranges. -/
lemma snaNorms_rows_le (ag : String) :
    (snaNorms ag).1.1 ≤ (snaNorms ag).1.2 ∧ (snaNorms ag).2.1.1 ≤ (snaNorms ag).2.1.2 ∧
      (snaNorms ag).2.2.1 ≤ (snaNorms ag).2.2.2 := by
  unfold snaNorms
  split_ifs <;> norm_num

/-- All SNB rows hold nonempty ranges. -/
lemma snbNorms_rows_le (ag : String) :
    (snbNorms ag).1.1 ≤ (snbNorms ag).1.2 ∧ (snbNorms ag).2.1.1 ≤ (snbNorms ag).2.1.2 ∧
      (snbNorms ag).2.2.1 ≤ (snbNorms ag).2.2.2 := by
  unfold snbNorms
  split_ifs <;> norm_num

/-- All FMA rows hold nonempty ranges. -/
lemma fmaNorms_rows_le (ag : String) :
    (fmaNorms ag).1.1 ≤ (fmaNorms ag).1.2 ∧ (fmaNorms ag).2.1.1 ≤ (fmaNorms ag).2.1.2 ∧
      (fmaNorms ag).2.2.1 ≤ (fmaNorms ag).2.2.2 := by
  unfold fmaNorms
  split_ifs <;> norm_num

/-- Every personalized normal range in the table is nonempty. -/
lemma personalized_range_le (metric : String) (age : ℤ) (sex : String) :
    (get_personalized_normal_range metric age sex).1 ≤
      (get_personalized_normal_range metric age sex).2 := by
  unfold get_personalized_normal_range
  split_ifs
  · exact pickSex_le _ _ (anbNorms_rows_le _).1 (anbNorms_rows_le _).2.1 (anbNorms_rows_le _).2.2
  · exact pickSex_le _ _ (snaNorms_rows_le _).1 (snaNorms_rows_le _).2.1 (snaNorms_rows_le _).2.2
  · exact pickSex_le _ _ (snbNorms_rows_le _).1 (snbNorms_rows_le _).2.1 (snbNorms_rows_le _).2.2
  · exact pickSex_le _ _ (fmaNorms_rows_le _).1 (fmaNorms_rows_le _).2.1 (fmaNorms_rows_le _).2.2
  · norm_num

/-- The personalized ANB range of an adult male is [0, 3.5]. -/
lemma range_anb_adult_male : get_personalized_normal_range "ANB" 30 "M" = (0, 3.5) := by
  have hag : get_age_group 30 = "adult" := by
    unfold get_age_group
    norm_num
  unfold get_personalized_normal_range
  rw [if_pos rfl, hag]
  unfold pickSex
  rw [if_pos rfl]
  unfold anbNorms
  rw [if_neg (by decide), if_neg (by decide)]
  norm_num

/-- C6: for every ANB value, age and sex, the rule stage classifies against
the personalized ANB normal range [min, max] for that age bracket and sex:
above max + 0.5 it is class II with confidence
min(0.95, 0.6 + 0.1·(ANB − (max+0.5))); below min − 0.5 it is class III
with the symmetric confidence; otherwise class I with confidence
0.9 − 0.3·(|ANB − center| / halfWidth) floored at 0.6. -/
theorem rule_stage_personalized (anb : ℝ) (age : ℤ) (sex : String) :
    (anb > (get_personalized_normal_range "ANB" age sex).2 + 0.5 →
      enhanced_rule_based_classification anb age sex =
        (1, min 0.95 (0.6 +
          0.1 * (anb - ((get_personalized_normal_range "ANB" age sex).2 + 0.5))))) ∧
    (anb < (get_personalized_normal_range "ANB" age sex).1 - 0.5 →
      enhanced_rule_based_classification anb age sex =
        (2, min 0.95 (0.6 +
          0.1 * (((get_personalized_normal_range "ANB" age sex).1 - 0.5) - anb)))) ∧
    ((get_personalized_normal_range "ANB" age sex).1 - 0.5 ≤ anb →
      anb ≤ (get_personalized_normal_range "ANB" age sex).2 + 0.5 →
      enhanced_rule_based_classification anb age sex =
        (0, max 0.6 (0.9 - 0.3 *
          (|anb - ((get_personalized_normal_range "ANB" age sex).1 +
              (get_personalized_normal_range "ANB" age sex).2) / 2| /
            (((get_personalized_normal_range "ANB" age sex).2 -
              (get_personalized_normal_range "ANB" age sex).1) / 2))))) := by
  have hle := personalized_range_le "ANB" age sex
  unfold enhanced_rule_based_classification
  refine ⟨fun h => ?_, fun h => ?_, fun h1 h2 => ?_⟩
  · rw [if_pos h]
    rw [show 0.6 + (anb - ((get_personalized_normal_range "ANB" age sex).2 + 0.5)) * 0.1 =
        0.6 + 0.1 * (anb - ((get_personalized_normal_range "ANB" age sex).2 + 0.5)) from by ring]
  · rw [if_neg (not_lt.mpr (by linarith)), if_pos h]
    rw [show 0.6 + ((get_personalized_normal_range "ANB" age sex).1 - 0.5 - anb) * 0.1 =
        0.6 + 0.1 * ((get_personalized_normal_range "ANB" age sex).1 - 0.5 - anb) from by ring]
  · rw [if_neg (not_lt.mpr h2), if_neg (not_lt.mpr h1)]
    rw [show |anb - ((get_personalized_normal_range "ANB" age sex).1 +
          (get_personalized_normal_range "ANB" age sex).2) / 2| /
        (((get_personalized_normal_range "ANB" age sex).2 -
          (get_personalized_normal_range "ANB" age sex).1) / 2) * 0.3 =
        0.3 * (|anb - ((get_personalized_normal_range "ANB" age sex).1 +
          (get_personalized_normal_range "ANB" age sex).2) / 2| /
        (((get_personalized_normal_range "ANB" age sex).2 -
          (get_personalized_normal_range "ANB" age sex).1) / 2)) from by ring]

/-- C6 witness: ANB = 7 for a 30-year-old male (adult-male range [0, 3.5],
class II threshold 4.0) gives class II with confidence 0.9. -/
theorem rule_stage_personalized_witness :
    ((7 : ℝ) > (get_personalized_normal_range "ANB" 30 "M").2 + 0.5) ∧
    enhanced_rule_based_classification 7 30 "M" =
      (1, min 0.95 (0.6 +
        0.1 * ((7 : ℝ) - ((get_personalized_normal_range "ANB" 30 "M").2 + 0.5)))) :=
  ⟨by rw [range_anb_adult_male]; norm_num,
    (rule_stage_personalized 7 30 "M").1 (by rw [range_anb_adult_male]; norm_num)⟩

/-! ## C7: the fused probability vector is a distribution -/

/-- Softmax components are positive. -/
lemma softmax3_pos (l : Fin 3 → ℝ) (i : Fin 3) : 0 < softmax3 l i := by
  unfold softmax3
  positivity

/-- Rule-stage confidence is at least 0.6. -/
lemma rule_confidence_ge (anb : ℝ) (age : ℤ) (sex : String) :
    0.6 ≤ (enhanced_rule_based_classification anb age sex).2 := by
  unfold enhanced_rule_based_classification
  split_ifs with h1 h2
  · simp only
    rw [le_min_iff]
    constructor
    · norm_num
    · nlinarith
  · simp only
    rw [le_min_iff]
    constructor
    · norm_num
    · nlinarith
  · simp only
    exact le_max_left _ _

/-- Both dynamic fusion weights are strictly positive. -/
lemma dynamic_weights_pos (f : Features) :
    0 < (calculate_dynamic_weights f).1 ∧ 0 < (calculate_dynamic_weights f).2 := by
  unfold calculate_dynamic_weights
  split_ifs <;> constructor <;> norm_num

/-- A fused vector with positive weights, positive rule confidence and a
positive statistical vector is a probability distribution. -/
lemma fusedProbs_simplex (rc : ℕ) (conf rw mw : ℝ) (mp : Fin 3 → ℝ)
    (hconf : 0 < conf) (hrw : 0 < rw) (hmw : 0 < mw) (hmp : ∀ i, 0 < mp i) :
    fusedProbs rc conf rw mw mp 0 + fusedProbs rc conf rw mw mp 1 +
        fusedProbs rc conf rw mw mp 2 = 1 ∧
    ∀ i, 0 ≤ fusedProbs rc conf rw mw mp i := by
  have hite : ∀ k : ℕ, 0 ≤ (if k = rc then rw * conf else 0) := by
    intro k
    split_ifs
    · positivity
    · exact le_rfl
  have hS : 0 < ((if (0 : ℕ) = rc then rw * conf else 0) + mw * mp 0) +
      ((if (1 : ℕ) = rc then rw * conf else 0) + mw * mp 1) +
      ((if (2 : ℕ) = rc then rw * conf else 0) + mw * mp 2) := by
    have p0 : 0 < (if (0 : ℕ) = rc then rw * conf else 0) + mw * mp 0 :=
      add_pos_of_nonneg_of_pos (hite 0) (mul_pos hmw (hmp 0))
    have p1 : 0 < (if (1 : ℕ) = rc then rw * conf else 0) + mw * mp 1 :=
      add_pos_of_nonneg_of_pos (hite 1) (mul_pos hmw (hmp 1))
    have p2 : 0 < (if (2 : ℕ) = rc then rw * conf else 0) + mw * mp 2 :=
      add_pos_of_nonneg_of_pos (hite 2) (mul_pos hmw (hmp 2))
    linarith
  constructor
  · simp only [fusedProbs, Fin.val_zero, Fin.val_one, Fin.val_two]
    rw [div_add_div_same, div_add_div_same]
    exact div_self (ne_of_gt hS)
  · intro i
    simp only [fusedProbs]
    exact div_nonneg (add_nonneg (hite _) (mul_nonneg hmw.le (hmp i).le)) hS.le

/-- C7: for every metrics and metadata input (and every PRNG draw stream
and feature hash), the final probability vector in the classification
result has all three components nonnegative and sums to 1 within 1e-6
(the renormalization makes the sum exactly 1 in exact arithmetic). -/
theorem final_probabilities_distribution (seed : ℕ) (g : ℕ → ℕ → ℝ)
    (ph : Features → ℕ) (metrics : MetricsIn) (meta : Option Meta) :
    |((classifier_predict seed g ph metrics meta).probabilities 0 +
        (classifier_predict seed g ph metrics meta).probabilities 1 +
        (classifier_predict seed g ph metrics meta).probabilities 2) - 1| ≤ 1 / 1000000 ∧
    ∀ i, 0 ≤ (classifier_predict seed g ph metrics meta).probabilities i := by
  set md := meta.getD { age := some 25, sex := some "U" } with hmd
  set f := extract_enhanced_features metrics md with hf
  set rc := enhanced_rule_based_classification f.anb f.age (md.sex.getD "U") with hrc
  set w := calculate_dynamic_weights f with hw
  set mp := enhanced_ml_simulation f seed g ph with hmp
  have hp : (classifier_predict seed g ph metrics meta).probabilities =
      fusedProbs rc.1 rc.2 w.1 w.2 mp := rfl
  have hconf : (0 : ℝ) < rc.2 := by
    rw [hrc]
    exact lt_of_lt_of_le (by norm_num) (rule_confidence_ge _ _ _)
  have hw1 : 0 < w.1 := by
    rw [hw]
    exact (dynamic_weights_pos f).1
  have hw2 : 0 < w.2 := by
    rw [hw]
    exact (dynamic_weights_pos f).2
  have hmpp : ∀ i, 0 < mp i := by
    intro i
    rw [hmp]
    exact softmax3_pos (mlLogits f seed g ph) i
  obtain ⟨hsum, hnn⟩ := fusedProbs_simplex rc.1 rc.2 w.1 w.2 mp hconf hw1 hw2 hmpp
  rw [hp]
  refine ⟨?_, hnn⟩
  rw [hsum]
  norm_num

/-! ## C10: metadata defaulting at the classifier interface -/

/-- C10: for every metrics input, `predict` with `meta = None` produces the
same result as `predict` with the explicit default metadata
age = 25, sex = "U"; more generally a missing age key defaults to 25 and a
missing sex key defaults to "U" — absent patient metadata is silently
defaulted at the public classifier interface, never an error. -/
theorem meta_defaults_applied (seed : ℕ) (g : ℕ → ℕ → ℝ) (ph : Features → ℕ)
    (metrics : MetricsIn) :
    classifier_predict seed g ph metrics none =
      classifier_predict seed g ph metrics (some { age := some 25, sex := some "U" }) ∧
    (∀ sx : Option String,
      classifier_predict seed g ph metrics (some { age := none, sex := sx }) =
        classifier_predict seed g ph metrics (some { age := some 25, sex := sx })) ∧
    (∀ ag : Option ℤ,
      classifier_predict seed g ph metrics (some { age := ag, sex := none }) =
        classifier_predict seed g ph metrics (some { age := ag, sex := some "U" })) :=
  ⟨rfl, fun _ => rfl, fun _ => rfl⟩

/-! ## C3: determinism of estimator and classifier -/

/-- C3: with a fixed configuration and PRNG draw streams (NumPy's
`RandomState` is a pure function of its seed, and the per-call generators
are reseeded from call-local data only), two calls of `predict_landmarks`
on inputs agreeing in image hash, dimensions and image statistics (and
anchors) return identical landmark coordinates, and two calls of the
classifier on equal metrics and metadata return identical confidence:
the embedding is a pure function of exactly these inputs, so no global
entropy or cross-call state can make two identical calls differ. -/
theorem estimator_classifier_deterministic (cfg : InferCfg) (g : ℕ → ℕ → ℝ)
    (ih1 ih2 : String) (w1 w2 h1 h2 : ℕ) (s1 s2 : Stats) (a1 a2 : Option Lm)
    (seed : ℕ) (gc : ℕ → ℕ → ℝ) (ph : Features → ℕ) (m1 m2 : MetricsIn)
    (mt1 mt2 : Option Meta)
    (hih : ih1 = ih2) (hw : w1 = w2) (hh : h1 = h2) (hs : s1 = s2) (ha : a1 = a2)
    (hm : m1 = m2) (hmt : mt1 = mt2) :
    predict_landmarks cfg g ih1 w1 h1 s1 a1 = predict_landmarks cfg g ih2 w2 h2 s2 a2 ∧
    (classifier_predict seed gc ph m1 mt1).confidence =
      (classifier_predict seed gc ph m2 mt2).confidence := by
  subst hih hw hh hs ha hm hmt
  exact ⟨rfl, rfl⟩

/-- C3 witness: the determinism theorem applied at a concrete repeated
call. -/
theorem estimator_classifier_deterministic_witness :
    predict_landmarks okState.cfg gZero "h" 800 600 stats0 none =
      predict_landmarks okState.cfg gZero "h" 800 600 stats0 none ∧
    (classifier_predict 42 gZero hashZero emptyMetrics none).confidence =
      (classifier_predict 42 gZero hashZero emptyMetrics none).confidence :=
  estimator_classifier_deterministic okState.cfg gZero "h" "h" 800 800 600 600
    stats0 stats0 none none 42 gZero hashZero emptyMetrics emptyMetrics none none
    rfl rfl rfl rfl rfl rfl rfl

/-! ## C5: anchor correction and inference modes -/

/-- C5 counterexample: when the image hash matches the canonical demo hash
and the caller supplies anchors for both Or and Po, `predict_landmarks`
stays in precomputed mode — the anchor-correction branch lives inside the
non-matching branch only (demo_inference.py:325-356), so manual_corrected
is not entered from the precomputed path, contradicting the claim that it
is entered from either of the two other modes. -/
theorem anchors_ignored_on_precomputed_cex :
    (predict_landmarks ⟨"h", [], [], 42⟩ gZero "h" 800 600 stats0 (some cexAnchors)).2 =
      "precomputed" ∧
    ("precomputed" : String) ≠ "manual_corrected" :=
  ⟨rfl, by decide⟩

/-- C5 amended: whenever the caller supplies anchor coordinates for both
Or and Po and the image hash does not match the canonical hash (i.e. the
call would otherwise resolve to adaptive_heuristic, not precomputed),
`predict_landmarks` enters manual_corrected mode and remaps all landmarks
by the similarity transform from its current Or/Po positions to the
supplied coordinates; on the precomputed path anchors are ignored. -/
theorem anchors_apply_on_adaptive (cfg : InferCfg) (g : ℕ → ℕ → ℝ) (ih : String)
    (w h : ℕ) (st : Stats) (a : Lm)
    (hna : ih ≠ cfg.demoHash)
    (ha : (containsLm a "Or" && containsLm a "Po") = true) :
    (predict_landmarks cfg g ih w h st (some a)).2 = "manual_corrected" ∧
    (predict_landmarks cfg g ih w h st (some a)).1 =
      clamp_points_to_image
        (add_intelligent_jitter
          (similarity_transform_2d
            (scale_normalized_landmarks
              (adaptive_landmark_adjustment cfg.meanShape ((w : ℝ) / (h : ℝ)) st.mean) w h)
            (getLm (scale_normalized_landmarks
              (adaptive_landmark_adjustment cfg.meanShape ((w : ℝ) / (h : ℝ)) st.mean) w h) "Or")
            (getLm (scale_normalized_landmarks
              (adaptive_landmark_adjustment cfg.meanShape ((w : ℝ) / (h : ℝ)) st.mean) w h) "Po")
            (getLm a "Or") (getLm a "Po"))
          st 1.5 cfg.seed g) w h 5 := by
  unfold predict_landmarks
  rw [if_neg hna]
  dsimp only
  rw [ha]
  exact ⟨rfl, rfl⟩

/-- C5 witness: the amended theorem at a non-matching hash with concrete
anchors. -/
theorem anchors_apply_on_adaptive_witness :
    ("x" ≠ (⟨"h", [], [], 42⟩ : InferCfg).demoHash) ∧
    (predict_landmarks ⟨"h", [], [], 42⟩ gZero "x" 800 600 stats0 (some cexAnchors)).2 =
      "manual_corrected" :=
  ⟨by decide,
    (anchors_apply_on_adaptive ⟨"h", [], [], 42⟩ gZero "x" 800 600 stats0 cexAnchors
      (by decide) (by decide)).1⟩

/-! ## C8: clamped output bounds -/

/-- Every coordinate surviving a lookup in a clamped landmark list lies in
the margin box. -/
lemma lookup_clamp_bounds (l : Lm) (w h : ℕ) (m : ℝ)
    (hw : m ≤ (w : ℝ) - m) (hh : m ≤ (h : ℝ) - m) :
    ∀ nm p, lookupLm (clamp_points_to_image l w h m) nm = some p →
      m ≤ p.1 ∧ p.1 ≤ (w : ℝ) - m ∧ m ≤ p.2 ∧ p.2 ≤ (h : ℝ) - m := by
  induction l with
  | nil =>
      intro nm p hp
      simp [clamp_points_to_image, lookupLm] at hp
  | cons head tail ih =>
      intro nm p hp
      unfold clamp_points_to_image at hp
      rw [List.map_cons] at hp
      unfold lookupLm at hp
      by_cases hk : head.1 = nm
      · rw [if_pos hk] at hp
        have hpv : p = (max m (min head.2.1 ((w : ℝ) - m)),
            max m (min head.2.2 ((h : ℝ) - m))) := by
          exact (Option.some_injective _ hp).symm
        subst hpv
        refine ⟨le_max_left _ _, ?_, le_max_left _ _, ?_⟩
        · exact max_le hw (min_le_right _ _)
        · exact max_le hh (min_le_right _ _)
      · rw [if_neg hk] at hp
        exact ih nm p hp

/-- C8: for every landmark set, PRNG stream and image whose width and
height are at least 10 (twice the margin 5), every coordinate returned by
`predict_landmarks` lies within [5, width-5] x [5, height-5] — the final
clamping step guarantees the bound after jitter. -/
theorem predicted_landmarks_within_margin (cfg : InferCfg) (g : ℕ → ℕ → ℝ)
    (ih : String) (w h : ℕ) (stats : Stats) (anchors : Option Lm)
    (hw : 10 ≤ w) (hh : 10 ≤ h) :
    ∀ nm p, lookupLm (predict_landmarks cfg g ih w h stats anchors).1 nm = some p →
      5 ≤ p.1 ∧ p.1 ≤ (w : ℝ) - 5 ∧ 5 ≤ p.2 ∧ p.2 ≤ (h : ℝ) - 5 := by
  have hw' : (5 : ℝ) ≤ (w : ℝ) - 5 := by
    have : (10 : ℝ) ≤ (w : ℝ) := by exact_mod_cast hw
    linarith
  have hh' : (5 : ℝ) ≤ (h : ℝ) - 5 := by
    have : (10 : ℝ) ≤ (h : ℝ) := by exact_mod_cast hh
    linarith
  exact lookup_clamp_bounds _ w h 5 hw' hh'

/-- C8 witness: the bound theorem at a concrete 800x600 call. -/
theorem predicted_landmarks_within_margin_witness :
    (10 ≤ 800 ∧ 10 ≤ 600) ∧
    (∀ nm p,
      lookupLm (predict_landmarks ⟨"h", [], [], 42⟩ gZero "h" 800 600 stats0 none).1 nm =
          some p →
        5 ≤ p.1 ∧ p.1 ≤ ((800 : ℕ) : ℝ) - 5 ∧ 5 ≤ p.2 ∧ p.2 ≤ ((600 : ℕ) : ℝ) - 5) :=
  ⟨⟨by norm_num, by norm_num⟩,
    predicted_landmarks_within_margin ⟨"h", [], [], 42⟩ gZero "h" 800 600 stats0 none
      (by norm_num) (by norm_num)⟩

/-! ## C4: the orchestrator's result contract -/

/-- C4 counterexample: on a healthy pipeline, a 50x50 image raises the
minimum-size ValueError inside the guarded stage sequence and the
catch-all handler (integration_pipeline.py:330-341) returns an error
record with only type and message — its stage field is absent — so the
claimed three-field {type, message, stage} descriptor does not hold for
stage failures. -/
theorem run_error_without_stage_cex :
    (pipeline_run okState gZero gZero hashZero tinyInput).success = false ∧
    (pipeline_run okState gZero gZero hashZero tinyInput).error =
      some ⟨"ValueError", "image too small", none⟩ :=
  ⟨rfl, rfl⟩

/-- C4 amended: `run` never propagates an exception — it always returns a
result record; every failure carries `success = false` and a
machine-readable error descriptor with type and message, but the stage
name is present only on the two init-failure paths (stage = "init"), not
in the catch-all handler for exceptions raised by downstream stages. -/
theorem run_always_structured (st : PipelineState) (g gc : ℕ → ℕ → ℝ)
    (ph : Features → ℕ) (inp : RunInput) :
    ((pipeline_run st g gc ph inp).success = true ∧
      (pipeline_run st g gc ph inp).error = none) ∨
    ((pipeline_run st g gc ph inp).success = false ∧
      ∃ e, (pipeline_run st g gc ph inp).error = some e ∧
        (e.stage = some "init" ∨ e.stage = none)) := by
  unfold pipeline_run
  split
  · exact Or.inr ⟨rfl, ⟨_, rfl, Or.inl rfl⟩⟩
  · split
    · split
      · exact Or.inr ⟨rfl, ⟨_, rfl, Or.inr rfl⟩⟩
      · dsimp only
        split
        · exact Or.inr ⟨rfl, ⟨_, rfl, Or.inr rfl⟩⟩
        · exact Or.inl ⟨rfl, rfl⟩
    · exact Or.inr ⟨rfl, ⟨_, rfl, Or.inl rfl⟩⟩

end Ceph
